import Mathlib

/-!
Shallow embedding of `src/lib/config/Notifications.ts`: the notification
definition registry of node-zwave-js.  The TypeScript module lazily loads a
JSON5 resource (`notifications.json`), validates its hex-string keys, builds a
`Map<number, Notification>`, memoizes recognized load failures as a permanently
empty map, and resolves `(notificationType, value)` queries through
`Notification.lookupValue` (events first, then variable states).

The embedding models JSON5 values, JavaScript property access (including the
TypeError raised when reading a property of `null`/`undefined`), the
`ZWaveError` shape used by the module, JS `Map` insertion/overwrite semantics
as association lists, and the module-level mutable cache as an explicit
registry state threaded through `lookupNotification`.
-/

/-- A parsed JSON5 value.  `jundef` is JavaScript `undefined`: it never occurs
in a freshly parsed document, but property access on an object lacking the
requested key produces it.  Object fields are kept in iteration order
(`Object.keys` insertion order; keys matching the `0x...` pattern are never
canonical integer strings, so JS does not reorder them). -/
inductive JValue where
  | jnull
  | jundef
  | jbool (b : Bool)
  | jnum (n : Int)
  | jstr (s : String)
  | jarr (elems : List JValue)
  | jobj (fields : List (String × JValue))

/-- `isObject` from alcalzone-shared/typeguards: true exactly for plain
objects (not arrays, not null). -/
def isObject : JValue → Bool
  | .jobj _ => true
  | _ => false

/-- `Array.isArray`. -/
def isArray : JValue → Bool
  | .jarr _ => true
  | _ => false

/-- The fields of an object value, in iteration order (empty otherwise). -/
def objFields : JValue → List (String × JValue)
  | .jobj fields => fields
  | _ => []

/-- Whether a value is exactly the boolean literal `false`
(the `!== false` test in the `NotificationVariable` constructor). -/
def isFalseLiteral : JValue → Bool
  | .jbool false => true
  | _ => false

/-- A character matched by the `[a-fA-F0-9]` class. -/
def isHexDigitChar (c : Char) : Bool :=
  (Char.ofNat 48 ≤ c && c ≤ Char.ofNat 57) ||
    (Char.ofNat 97 ≤ c && c ≤ Char.ofNat 102) ||
    (Char.ofNat 65 ≤ c && c ≤ Char.ofNat 70)

/-- `hexKeyRegex.test`: the key matches `^0x[a-fA-F0-9]+$`. -/
def hexKeyTest (s : String) : Bool :=
  match s.data with
  | '0' :: 'x' :: rest => !rest.isEmpty && rest.all isHexDigitChar
  | _ => false

/-- Numeric value of one hex digit (only applied to characters that passed
`isHexDigitChar`; other characters map to 0). -/
def hexDigitVal (c : Char) : Nat :=
  if Char.ofNat 48 ≤ c && c ≤ Char.ofNat 57 then c.toNat - 48
  else if Char.ofNat 97 ≤ c && c ≤ Char.ofNat 102 then c.toNat - 97 + 10
  else if Char.ofNat 65 ≤ c && c ≤ Char.ofNat 70 then c.toNat - 65 + 10
  else 0

/-- `parseInt(id.slice(2), 16)` on a key that already passed `hexKeyTest`. -/
def parseHexKey (s : String) : Nat :=
  (s.drop 2).data.foldl (fun acc c => acc * 16 + hexDigitVal c) 0

/-- The error-code enum used by `ZWaveError`.  The module only ever raises
`Config_Invalid`; `OtherCode` stands for the remaining members of the enum
(the recovery test in `lookupNotification` compares against
`Config_Invalid`, so the enum is not a singleton). -/
inductive ZWaveErrorCodes where
  | Config_Invalid
  | OtherCode
deriving DecidableEq

/-- The `ZWaveError` shape as used by this module: a message and a code. -/
structure ZWaveError where
  message : String
  code : ZWaveErrorCodes
deriving DecidableEq

/-- A JavaScript exception: either a typed `ZWaveError` or any other error
(TypeError, I/O failure, ...), identified only by a tag. -/
inductive JSError where
  | zwave (e : ZWaveError)
  | other (tag : String)
deriving DecidableEq

/-- The error thrown when the config file does not exist. -/
def configMissingError : ZWaveError :=
  { message := "The config file does not exist!", code := .Config_Invalid }

/-- The error thrown by `throwInvalidConfig` and by the normalizing catch. -/
def configMalformedError : ZWaveError :=
  { message := "The config file is malformed!", code := .Config_Invalid }

/-- `throwInvalidConfig()` as a value: the exception it throws. -/
def throwInvalidConfig : JSError := .zwave configMalformedError

/-- JS `Map.prototype.set`: overwrite in place if the key is present,
append otherwise. -/
def mapSet (m : List (Nat × α)) (k : Nat) (v : α) : List (Nat × α) :=
  if m.any (fun p => p.1 == k) then
    m.map (fun p => if p.1 == k then (k, v) else p)
  else m ++ [(k, v)]

/-- JS `Map.prototype.get` (as an `Option`). -/
def mapGet (m : List (Nat × α)) (k : Nat) : Option α :=
  (m.find? (fun p => p.1 == k)).map (fun p => p.2)

/-- JS `Map.prototype.has`. -/
def mapHas (m : List (Nat × α)) (k : Nat) : Bool :=
  m.any (fun p => p.1 == k)

/-- JavaScript property access `v[key]`: a TypeError on `null`/`undefined`,
the field (or `undefined`) on an object, `undefined` on other primitives and
arrays (none of the accessed names exists on their prototypes). -/
def getField : JValue → String → Except JSError JValue
  | .jnull, _ => .error (.other "TypeError")
  | .jundef, _ => .error (.other "TypeError")
  | .jobj fields, key => .ok ((fields.lookup key).getD .jundef)
  | _, _ => .ok (.jundef)

/-- The pure value of `v[key]` when access succeeds (`jundef` when `v` is not
an object or lacks the key). -/
def fieldOf : JValue → String → JValue
  | .jobj fields, key => (fields.lookup key).getD .jundef
  | _, _ => (.jundef)

/-- `NotificationState`: one discrete value of a variable.  `label` and
`description` are copied raw from the definition object. -/
structure NotificationState where
  id : Nat
  label : JValue
  description : JValue

/-- `NotificationEvent`: a momentary occurrence under a notification type. -/
structure NotificationEvent where
  id : Nat
  label : JValue
  description : JValue

/-- `NotificationVariable`: a named sub-state axis with its states map. -/
structure NotificationVariable where
  name : JValue
  idle : Bool
  states : List (Nat × NotificationState)

/-- `Notification`: one notification category. -/
structure Notification where
  id : Nat
  name : JValue
  vars : List NotificationVariable
  events : List (Nat × NotificationEvent)

/-- `NotificationValueDefinition`: the polymorphic lookup result, a tagged
union of an event descriptor (label/description only — the id is dropped)
and a state descriptor. -/
inductive NotificationValueDefinition where
  | event (label : JValue) (description : JValue)
  | state (value : Nat) (idle : Bool) (label : JValue) (description : JValue)
      (variableName : JValue)

/-- The `NotificationState` constructor (property access may throw). -/
def NotificationState.make (id : Nat) (definition : JValue) :
    Except JSError NotificationState :=
  match getField definition "label" with
  | .error e => .error e
  | .ok label =>
    match getField definition "description" with
    | .error e => .error e
    | .ok description => .ok { id := id, label := label, description := description }

/-- The `NotificationEvent` constructor. -/
def NotificationEvent.make (id : Nat) (definition : JValue) :
    Except JSError NotificationEvent :=
  match getField definition "label" with
  | .error e => .error e
  | .ok label =>
    match getField definition "description" with
    | .error e => .error e
    | .ok description => .ok { id := id, label := label, description := description }

/-- The loop over `entries(definition.states)` in the `NotificationVariable`
constructor: hex-validate each key, build the state, `Map.set` it. -/
def buildStates :
    List (String × JValue) → List (Nat × NotificationState) →
      Except JSError (List (Nat × NotificationState))
  | [], states => .ok states
  | (stateId, stateDefinition) :: rest, states =>
    if hexKeyTest stateId then
      match NotificationState.make (parseHexKey stateId) stateDefinition with
      | .error e => .error e
      | .ok st => buildStates rest (mapSet states (parseHexKey stateId) st)
    else .error throwInvalidConfig

/-- The `NotificationVariable` constructor: copies `name`, computes
`idle = (definition.idle !== false)`, requires `states` to be an object
(else `throwInvalidConfig`), then builds the states map. -/
def NotificationVariable.make (definition : JValue) :
    Except JSError NotificationVariable :=
  match getField definition "name" with
  | .error e => .error e
  | .ok name =>
    match getField definition "idle" with
    | .error e => .error e
    | .ok idleVal =>
      match getField definition "states" with
      | .error e => .error e
      | .ok statesVal =>
        if isObject statesVal then
          match buildStates (objFields statesVal) [] with
          | .error e => .error e
          | .ok states =>
            .ok { name := name, idle := !isFalseLiteral idleVal, states := states }
        else .error throwInvalidConfig

/-- `definition.variables.map(v => new NotificationVariable(v))`: construct
in order, aborting on the first exception. -/
def buildVariables : List JValue → Except JSError (List NotificationVariable)
  | [] => .ok []
  | v :: rest =>
    match NotificationVariable.make v with
    | .error e => .error e
    | .ok nv =>
      match buildVariables rest with
      | .error e => .error e
      | .ok tail => .ok (nv :: tail)

/-- The loop over `entries(definition.events)` in the `Notification`
constructor. -/
def buildEvents :
    List (String × JValue) → List (Nat × NotificationEvent) →
      Except JSError (List (Nat × NotificationEvent))
  | [], events => .ok events
  | (eventId, eventDefinition) :: rest, events =>
    if hexKeyTest eventId then
      match NotificationEvent.make (parseHexKey eventId) eventDefinition with
      | .error e => .error e
      | .ok ev => buildEvents rest (mapSet events (parseHexKey eventId) ev)
    else .error throwInvalidConfig

/-- The `Notification` constructor: `name` is copied raw, `variables` falls
back to an empty list unless the field is an array, `events` falls back to an
empty map unless the field is an object. -/
def Notification.make (id : Nat) (definition : JValue) :
    Except JSError Notification :=
  match getField definition "name" with
  | .error e => .error e
  | .ok name =>
    match getField definition "variables" with
    | .error e => .error e
    | .ok variablesVal =>
      match
        (match variablesVal with
         | .jarr vs => buildVariables vs
         | _ => .ok []) with
      | .error e => .error e
      | .ok vars =>
        match getField definition "events" with
        | .error e => .error e
        | .ok eventsVal =>
          match
            (match eventsVal with
             | .jobj fs => buildEvents fs []
             | _ => .ok []) with
          | .error e => .error e
          | .ok events =>
            .ok { id := id, name := name, vars := vars, events := events }

/-- `Notification.lookupValue`: events first; otherwise the first variable
whose states map contains the value. -/
def Notification.lookupValue (n : Notification) (value : Nat) :
    Option NotificationValueDefinition :=
  match mapGet n.events value with
  | some ev => some (.event ev.label ev.description)
  | none =>
    match n.vars.find? (fun v => mapHas v.states value) with
    | some foundVariable =>
      match mapGet foundVariable.states value with
      | some st =>
        some (.state value foundVariable.idle st.label st.description
          foundVariable.name)
      | none => none
    | none => none

/-- The state of the backing resource as seen by one load attempt:
the existence check itself may fail unexpectedly, the file may be missing,
reading/parsing may throw (a non-`ZWaveError`, normalized inside the `try`),
or parsing yields a value. -/
inductive ConfigResource where
  | pathCheckFails (tag : String)
  | missing
  | unreadable
  | parsed (v : JValue)

/-- The body of the `try` block in `loadNotifications`: root must be an
object, then every entry is hex-validated and constructed in order. -/
def buildNotifications :
    List (String × JValue) → List (Nat × Notification) →
      Except JSError (List (Nat × Notification))
  | [], acc => .ok acc
  | (id, ntfcnDefinition) :: rest, acc =>
    if hexKeyTest id then
      match Notification.make (parseHexKey id) ntfcnDefinition with
      | .error e => .error e
      | .ok n => buildNotifications rest (mapSet acc (parseHexKey id) n)
    else .error throwInvalidConfig

/-- Root-object check plus the entry loop. -/
def tryLoadBody (v : JValue) : Except JSError (List (Nat × Notification)) :=
  if isObject v then buildNotifications (objFields v) []
  else .error throwInvalidConfig

/-- The `catch` clause of `loadNotifications`: `ZWaveError`s pass through,
everything else becomes `configMalformedError`. -/
def normalizeCaught (r : Except JSError (List (Nat × Notification))) :
    Except JSError (List (Nat × Notification)) :=
  match r with
  | .ok m => .ok m
  | .error (.zwave e) => .error (.zwave e)
  | .error (.other _) => .error (.zwave configMalformedError)

/-- `loadNotifications`: missing file throws `configMissingError` (outside
the `try`); a read/parse exception is caught and normalized; a parsed value
runs the validated entry loop under the normalizing catch. -/
def loadNotifications : ConfigResource → Except JSError (List (Nat × Notification))
  | .pathCheckFails tag => .error (.other tag)
  | .missing => .error (.zwave configMissingError)
  | .unreadable => .error (.zwave configMalformedError)
  | .parsed v => normalizeCaught (tryLoadBody v)

/-- The module-level `notifications` cache: `unloaded` is `undefined`,
`loaded m` is any map (after success, or the permanently empty map cached
after a recognized failure). -/
inductive RegistryState where
  | unloaded
  | loaded (m : List (Nat × Notification))

/-- One call to `lookupNotification`: its returned/thrown result, the cache
state it leaves behind, and the diagnostic it printed (if any). -/
structure LookupOutcome where
  result : Except JSError (Option Notification)
  regState : RegistryState
  logged : Option String

/-- `lookupNotification`: load on first use; a `ZWaveError` with code
`Config_Invalid` is logged once and memoized as the empty map; any other
error propagates and leaves the cache unset; then `notifications.get`. -/
def lookupNotification (st : RegistryState) (res : ConfigResource)
    (notificationType : Nat) : LookupOutcome :=
  match st with
  | .loaded m =>
    { result := .ok (mapGet m notificationType), regState := .loaded m, logged := none }
  | .unloaded =>
    match loadNotifications res with
    | .ok m =>
      { result := .ok (mapGet m notificationType), regState := .loaded m, logged := none }
    | .error (.zwave ze) =>
      if ze.code = ZWaveErrorCodes.Config_Invalid then
        { result := .ok (mapGet ([] : List (Nat × Notification)) notificationType),
          regState := .loaded [],
          logged := some ("Could not load notification config: " ++ ze.message) }
      else
        { result := .error (.zwave ze), regState := .unloaded, logged := none }
    | .error (.other tag) =>
      { result := .error (.other tag), regState := .unloaded, logged := none }

/-- The resolution entry point of the spec, `resolve(notificationType,
value)`: `lookupNotification` composed with `lookupValue` on the found
Notification. -/
def resolve (st : RegistryState) (res : ConfigResource)
    (notificationType value : Nat) :
    Except JSError (Option NotificationValueDefinition) :=
  match (lookupNotification st res notificationType).result with
  | .error e => .error e
  | .ok none => .ok none
  | .ok (some n) => .ok (n.lookupValue value)

/-! ### Helper lemmas -/

/-- `Map.has` answers exactly whether `Map.get` finds something. -/
theorem mapHas_eq_isSome (m : List (Nat × α)) (k : Nat) :
    mapHas m k = (mapGet m k).isSome := by
  induction m with
  | nil => rfl
  | cons q rest ih =>
    simp only [mapHas, mapGet, List.any_cons, List.find?_cons]
    cases hp : (q.1 == k) <;> simp [hp]
    simpa [mapHas, mapGet] using ih

/-- Property access succeeds on anything but `null`/`undefined` and returns
the pure field value. -/
theorem getField_ok {definition : JValue} (hnn : definition ≠ .jnull)
    (hnu : definition ≠ .jundef) (k : String) :
    getField definition k = .ok (fieldOf definition k) := by
  cases definition <;> simp_all [getField, fieldOf]

/-- Property access on a non-object value yields `undefined`. -/
theorem fieldOf_non_object {d : JValue} (h : isObject d = false) (k : String) :
    fieldOf d k = .jundef := by
  cases d <;> simp_all [fieldOf, isObject]

/-- `isFalseLiteral` holds exactly for the boolean literal `false`. -/
theorem isFalseLiteral_iff (x : JValue) : isFalseLiteral x = true ↔ x = .jbool false := by
  cases x with
  | jbool b => cases b <;> simp [isFalseLiteral]
  | jnull => simp [isFalseLiteral]
  | jundef => simp [isFalseLiteral]
  | jnum n => simp [isFalseLiteral]
  | jstr s => simp [isFalseLiteral]
  | jarr elems => simp [isFalseLiteral]
  | jobj fields => simp [isFalseLiteral]

/-- The `Notification` constructor succeeds with empty variables and events
whenever the `variables` field is not an array and the `events` field is not
an object (no other validation applies to the definition value itself). -/
theorem make_non_array_vars (id : Nat) (definition : JValue)
    (hnn : definition ≠ .jnull) (hnu : definition ≠ .jundef)
    (hvar : isArray (fieldOf definition "variables") = false)
    (hev : isObject (fieldOf definition "events") = false) :
    Notification.make id definition =
      .ok { id := id, name := fieldOf definition "name", vars := [], events := [] } := by
  simp only [Notification.make, getField_ok hnn hnu]
  cases hv : fieldOf definition "variables" <;> rw [hv] at hvar <;>
    simp_all [isArray] <;>
    cases he : fieldOf definition "events" <;> rw [he] at hev <;>
    simp_all [isObject]

/-- The `NotificationVariable` constructor rejects any definition whose
`states` field is not an object. -/
theorem variableMake_states_required (definition : JValue)
    (hnn : definition ≠ .jnull) (hnu : definition ≠ .jundef)
    (hst : isObject (fieldOf definition "states") = false) :
    NotificationVariable.make definition = .error throwInvalidConfig := by
  simp only [NotificationVariable.make, getField_ok hnn hnu]
  simp [hst]

/-! ### Claim theorems -/

/-- C5: whenever a value is a key of the events map and also a key of the
states map of some variable, `lookupValue` returns the event-tagged descriptor
(label and description only, no id), never the state-tagged one. -/
theorem c5_event_precedence (n : Notification) (value : Nat)
    (hev : mapHas n.events value = true)
    (_hst : ∃ v, v ∈ n.vars ∧ mapHas v.states value = true) :
    ∃ ev, mapGet n.events value = some ev ∧
      n.lookupValue value =
        some (.event ev.label ev.description) := by
  have h := mapHas_eq_isSome n.events value
  rw [hev] at h
  obtain ⟨ev, hget⟩ := Option.isSome_iff_exists.mp h.symm
  exact ⟨ev, hget, by simp [Notification.lookupValue, hget]⟩

def c5CollidingVariable : NotificationVariable :=
  { name := .jstr "V", idle := true,
    states := [(5, { id := 5, label := .jstr "StateLabel", description := .jundef })] }

def c5CollidingNotification : Notification :=
  { id := 6, name := .jstr "X",
    vars := [c5CollidingVariable],
    events := [(5, { id := 5, label := .jstr "EventLabel", description := .jundef })] }

theorem c5_witness :
    ∃ ev, mapGet c5CollidingNotification.events 5 = some ev ∧
      c5CollidingNotification.lookupValue 5 =
        some (.event ev.label ev.description) :=
  c5_event_precedence c5CollidingNotification 5 rfl
    ⟨c5CollidingVariable, List.Mem.head _, rfl⟩

/-- C6: construction is asymmetric — a `variables` field that is absent or
not an array yields an empty variables list without error, while a `states`
field that is absent or not an object always fails with the malformed-config
error. -/
theorem c6_variables_lenient_states_strict :
    (∀ (id : Nat) (definition : JValue),
      definition ≠ .jnull → definition ≠ .jundef →
      isArray (fieldOf definition "variables") = false →
      isObject (fieldOf definition "events") = false →
      Notification.make id definition =
        .ok { id := id, name := fieldOf definition "name", vars := [], events := [] }) ∧
    (∀ definition : JValue,
      definition ≠ .jnull → definition ≠ .jundef →
      isObject (fieldOf definition "states") = false →
      NotificationVariable.make definition = .error throwInvalidConfig) :=
  ⟨fun id definition hnn hnu hvar hev => make_non_array_vars id definition hnn hnu hvar hev,
   fun definition hnn hnu hst => variableMake_states_required definition hnn hnu hst⟩

theorem c6_witness :
    Notification.make 6 (.jobj [("name", .jstr "A"), ("variables", .jstr "oops")]) =
      .ok { id := 6, name := .jstr "A", vars := [], events := [] } ∧
    NotificationVariable.make (.jobj [("name", .jstr "V")]) =
      .error throwInvalidConfig :=
  ⟨c6_variables_lenient_states_strict.1 6
      (.jobj [("name", .jstr "A"), ("variables", .jstr "oops")])
      (by simp) (by simp) rfl rfl,
   c6_variables_lenient_states_strict.2 (.jobj [("name", .jstr "V")])
      (by simp) (by simp) rfl⟩

/-- C7: the constructed `idle` flag is false exactly when the raw `idle`
field is the boolean literal `false`; omission or any other value (including
the string "no") yields true. -/
theorem c7_idle_exact_false (definition : JValue) (v : NotificationVariable)
    (h : NotificationVariable.make definition = .ok v) :
    (v.idle = false ↔ fieldOf definition "idle" = .jbool false) := by
  have hnn : definition ≠ .jnull := by
    rintro rfl; simp [NotificationVariable.make, getField] at h
  have hnu : definition ≠ .jundef := by
    rintro rfl; simp [NotificationVariable.make, getField] at h
  rw [NotificationVariable.make, getField_ok hnn hnu, getField_ok hnn hnu,
    getField_ok hnn hnu] at h
  simp only at h
  split at h
  · split at h
    · simp at h
    · injection h with h
      subst h
      simp [Bool.not_eq_false', ← isFalseLiteral_iff]
  · simp at h

theorem c7_witness :
    (NotificationVariable.make
        (.jobj [("idle", .jstr "no"), ("states", .jobj [])])).isOk = true ∧
    (true = false ↔
      fieldOf (.jobj [("idle", .jstr "no"), ("states", .jobj [])]) "idle" = .jbool false) :=
  ⟨rfl,
   c7_idle_exact_false (.jobj [("idle", .jstr "no"), ("states", .jobj [])])
     { name := .jundef, idle := true, states := [] } rfl⟩

/-- C8: the missing-resource failure and the malformed-config failure are the
same typed error with the same code `Config_Invalid`, differing only in
message text, and the recovery test in `lookupNotification` accepts both
(memoizing the empty map in either case). -/
theorem c8_shared_error_code :
    loadNotifications .missing = .error (.zwave configMissingError) ∧
    loadNotifications .unreadable = .error (.zwave configMalformedError) ∧
    configMissingError.code = ZWaveErrorCodes.Config_Invalid ∧
    configMalformedError.code = ZWaveErrorCodes.Config_Invalid ∧
    configMissingError.message ≠ configMalformedError.message ∧
    (lookupNotification .unloaded .missing 0).regState = .loaded [] ∧
    (lookupNotification .unloaded .unreadable 0).regState = .loaded [] :=
  ⟨rfl, rfl, rfl, rfl, by decide, rfl, rfl⟩

/-- C1: once a load attempt fails with a recognized config error, the cache
is set to the permanently empty map; every later call — under any resource
state, for any notification type — returns absent, leaves the cache
unchanged, and emits no diagnostic (the constant outcome does not consult
the resource, so no re-read occurs). -/
theorem c1_recognized_failure_memoized (res : ConfigResource) (ze : ZWaveError)
    (ty : Nat)
    (hload : loadNotifications res = .error (.zwave ze))
    (hcode : ze.code = ZWaveErrorCodes.Config_Invalid) :
    (lookupNotification .unloaded res ty).regState = .loaded [] ∧
    ∀ (res2 : ConfigResource) (ty2 : Nat),
      lookupNotification (.loaded []) res2 ty2 =
        { result := .ok none, regState := .loaded [], logged := none } := by
  refine ⟨?_, fun res2 ty2 => rfl⟩
  simp [lookupNotification, hload, hcode]

theorem c1_witness :
    (lookupNotification .unloaded .missing 0).regState = .loaded [] ∧
    lookupNotification (.loaded [])
        (.parsed (.jobj [("0x1", .jobj [("name", .jstr "Late")])])) 1 =
      { result := .ok none, regState := .loaded [], logged := none } :=
  ⟨(c1_recognized_failure_memoized .missing configMissingError 0 rfl rfl).1,
   (c1_recognized_failure_memoized .missing configMissingError 0 rfl rfl).2
     (.parsed (.jobj [("0x1", .jobj [("name", .jstr "Late")])])) 1⟩

/-- C2: whenever a call leaves the registry in the loaded state with map
`m`, the call returned exactly `m.get notificationType`, and the composed
resolution returns absent for an unknown type and otherwise the result of
calling `lookupValue(value)` on that Notification. -/
theorem c2_resolve_contract (st : RegistryState) (res : ConfigResource)
    (ty value : Nat) (m : List (Nat × Notification))
    (h : (lookupNotification st res ty).regState = .loaded m) :
    (lookupNotification st res ty).result = .ok (mapGet m ty) ∧
    resolve st res ty value =
      .ok ((mapGet m ty).bind fun n => n.lookupValue value) := by
  have h1 : (lookupNotification st res ty).result = .ok (mapGet m ty) := by
    cases st with
    | loaded mPrev =>
      simp only [lookupNotification] at h ⊢
      cases h
      rfl
    | unloaded =>
      cases hl : loadNotifications res with
      | ok mNew =>
        simp only [lookupNotification, hl] at h ⊢
        cases h
        rfl
      | error e =>
        cases e with
        | zwave ze =>
          by_cases hc : ze.code = ZWaveErrorCodes.Config_Invalid
          · simp only [lookupNotification, hl, hc, if_pos] at h ⊢
            simp only [RegistryState.loaded.injEq] at h
            subst h
            rfl
          · simp only [lookupNotification, hl, if_neg hc] at h
            cases h
        | other tag =>
          simp only [lookupNotification, hl] at h
          cases h
  refine ⟨h1, ?_⟩
  unfold resolve
  rw [h1]
  cases mapGet m ty with
  | none => rfl
  | some n => rfl

def waterJson : JValue :=
  .jobj [("0x6", .jobj [
    ("name", .jstr "Water"),
    ("variables", .jarr [
      .jobj [("name", .jstr "Leak detected"),
             ("states", .jobj [
               ("0x1", .jobj [("label", .jstr "Leak")]),
               ("0x2", .jobj [("label", .jstr "No leak")])])]])])]

def waterMap : List (Nat × Notification) :=
  [(6, { id := 6, name := .jstr "Water",
         vars := [{ name := .jstr "Leak detected", idle := true,
                    states := [(1, { id := 1, label := .jstr "Leak",
                                     description := .jundef }),
                               (2, { id := 2, label := .jstr "No leak",
                                     description := .jundef })] }],
         events := [] })]

theorem c2_witness :
    (lookupNotification .unloaded (.parsed waterJson) 6).result =
      .ok (mapGet waterMap 6) ∧
    resolve .unloaded (.parsed waterJson) 6 1 =
      .ok ((mapGet waterMap 6).bind fun n => n.lookupValue 1) :=
  c2_resolve_contract .unloaded (.parsed waterJson) 6 1 waterMap rfl

/-- C4: a load failure that is not a `ZWaveError` with code `Config_Invalid`
propagates out of `lookupNotification`, emits no diagnostic, and leaves the
registry unloaded, so the next call behaves exactly like a fresh first
call. -/
theorem c4_unexpected_error_propagates (res : ConfigResource) (e : JSError)
    (ty : Nat)
    (hload : loadNotifications res = .error e)
    (hunrec : ∀ ze, e = .zwave ze → ze.code ≠ ZWaveErrorCodes.Config_Invalid) :
    lookupNotification .unloaded res ty =
      { result := .error e, regState := .unloaded, logged := none } ∧
    ∀ (res2 : ConfigResource) (ty2 : Nat),
      lookupNotification (lookupNotification .unloaded res ty).regState res2 ty2 =
        lookupNotification .unloaded res2 ty2 := by
  have h1 : lookupNotification .unloaded res ty =
      { result := .error e, regState := .unloaded, logged := none } := by
    cases e with
    | zwave ze => simp [lookupNotification, hload, hunrec ze rfl]
    | other tag => simp [lookupNotification, hload]
  exact ⟨h1, fun res2 ty2 => by rw [h1]⟩

theorem c4_witness :
    lookupNotification .unloaded (.pathCheckFails "EPERM") 3 =
      { result := .error (.other "EPERM"), regState := .unloaded, logged := none } ∧
    lookupNotification
        (lookupNotification .unloaded (.pathCheckFails "EPERM") 3).regState
        (.parsed (.jobj [])) 3 =
      lookupNotification .unloaded (.parsed (.jobj [])) 3 :=
  ⟨(c4_unexpected_error_propagates (.pathCheckFails "EPERM") (.other "EPERM") 3
      rfl (fun ze hze => by cases hze)).1,
   (c4_unexpected_error_propagates (.pathCheckFails "EPERM") (.other "EPERM") 3
      rfl (fun ze hze => by cases hze)).2 (.parsed (.jobj [])) 3⟩

/-- C10 counterexample: `null` is a top-level value that is not an object,
yet the load is rejected — the property access in the `Notification`
constructor throws, the catch normalizes it, and the whole load fails with
the malformed-config error instead of accepting the entry. -/
theorem c10_null_value_rejected :
    loadNotifications (.parsed (.jobj [("0x1", .jnull)])) =
      .error (.zwave configMalformedError) := rfl

/-- C10 (amended): a top-level entry whose key matches the hex pattern and
whose value is neither an object nor `null` (e.g. a number or string) is
accepted: the load succeeds with a Notification having an undefined name,
no variables and no events, and `lookupValue` returns absent for every
value. -/
theorem c10_non_object_value_accepted (key : String) (d : JValue)
    (hk : hexKeyTest key = true)
    (hobj : isObject d = false) (hnn : d ≠ .jnull) (hnu : d ≠ .jundef) :
    loadNotifications (.parsed (.jobj [(key, d)])) =
      .ok [(parseHexKey key,
        { id := parseHexKey key, name := .jundef, vars := [], events := [] })] ∧
    ∀ value : Nat,
      Notification.lookupValue
        { id := parseHexKey key, name := .jundef, vars := [], events := [] }
        value = none := by
  refine ⟨?_, fun value => rfl⟩
  have hmake := make_non_array_vars (parseHexKey key) d hnn hnu
    (by rw [fieldOf_non_object hobj]; rfl)
    (by rw [fieldOf_non_object hobj]; rfl)
  rw [fieldOf_non_object hobj] at hmake
  simp [loadNotifications, tryLoadBody, normalizeCaught, buildNotifications,
    isObject, objFields, hk, hmake, mapSet]

theorem c10_witness :
    loadNotifications (.parsed (.jobj [("0x2", .jnum 7)])) =
      .ok [(2, { id := 2, name := .jundef, vars := [], events := [] })] ∧
    Notification.lookupValue
      { id := 2, name := .jundef, vars := [], events := [] } 3 = none :=
  ⟨(c10_non_object_value_accepted "0x2" (.jnum 7) (by decide) rfl
      (by simp) (by simp)).1,
   (c10_non_object_value_accepted "0x2" (.jnum 7) (by decide) rfl
      (by simp) (by simp)).2 3⟩

/-- An exception that the normalizing catch of `loadNotifications` turns
into exactly the malformed-config error: any non-`ZWaveError`, or the
`ZWaveError` already equal to `configMalformedError`. -/
def normalizesToMalformed : JSError → Prop
  | .zwave ze => ze = configMalformedError
  | .other _ => True

theorem normalizesToMalformed_throwInvalidConfig :
    normalizesToMalformed throwInvalidConfig := rfl

theorem normalizeCaught_of_shape {e : JSError} (h : normalizesToMalformed e) :
    normalizeCaught (.error e) = .error (.zwave configMalformedError) := by
  cases e with
  | zwave ze =>
    simp only [normalizesToMalformed] at h
    subst h
    rfl
  | other tag => rfl

theorem getField_error_shape {d : JValue} {k : String} {e : JSError}
    (h : getField d k = .error e) : normalizesToMalformed e := by
  cases d <;> simp [getField] at h <;> exact h ▸ trivial

theorem stateMake_error_shape {id : Nat} {d : JValue} {e : JSError}
    (h : NotificationState.make id d = .error e) : normalizesToMalformed e := by
  unfold NotificationState.make at h
  split at h
  next e1 heq =>
    injection h with h
    exact h ▸ getField_error_shape heq
  next label heq =>
    split at h
    next e2 heq2 =>
      injection h with h
      exact h ▸ getField_error_shape heq2
    next => simp at h

theorem eventMake_error_shape {id : Nat} {d : JValue} {e : JSError}
    (h : NotificationEvent.make id d = .error e) : normalizesToMalformed e := by
  unfold NotificationEvent.make at h
  split at h
  next e1 heq =>
    injection h with h
    exact h ▸ getField_error_shape heq
  next label heq =>
    split at h
    next e2 heq2 =>
      injection h with h
      exact h ▸ getField_error_shape heq2
    next => simp at h

theorem buildStates_error_shape (fields : List (String × JValue)) :
    ∀ (acc : List (Nat × NotificationState)) (e : JSError),
      buildStates fields acc = .error e → normalizesToMalformed e := by
  induction fields with
  | nil => intro acc e h; simp [buildStates] at h
  | cons pd rest ih =>
    intro acc e h
    obtain ⟨k, d⟩ := pd
    by_cases hk : hexKeyTest k = true
    · simp only [buildStates, hk, if_true] at h
      split at h
      next e1 heq =>
        injection h with h
        exact h ▸ stateMake_error_shape heq
      next st heq => exact ih _ _ h
    · simp only [buildStates, if_neg hk] at h
      injection h with h
      exact h ▸ normalizesToMalformed_throwInvalidConfig

theorem variableMake_error_shape {d : JValue} {e : JSError}
    (h : NotificationVariable.make d = .error e) : normalizesToMalformed e := by
  unfold NotificationVariable.make at h
  split at h
  next e1 heq =>
    injection h with h
    exact h ▸ getField_error_shape heq
  next name heq =>
    split at h
    next e2 heq2 =>
      injection h with h
      exact h ▸ getField_error_shape heq2
    next idleVal heq2 =>
      split at h
      next e3 heq3 =>
        injection h with h
        exact h ▸ getField_error_shape heq3
      next statesVal heq3 =>
        split at h
        · split at h
          next e4 heq4 =>
            injection h with h
            exact h ▸ buildStates_error_shape _ _ _ heq4
          next => simp at h
        · injection h with h
          exact h ▸ normalizesToMalformed_throwInvalidConfig

theorem buildVariables_error_shape (vs : List JValue) :
    ∀ e : JSError, buildVariables vs = .error e → normalizesToMalformed e := by
  induction vs with
  | nil => intro e h; simp [buildVariables] at h
  | cons v rest ih =>
    intro e h
    simp only [buildVariables] at h
    split at h
    next e1 heq =>
      injection h with h
      exact h ▸ variableMake_error_shape heq
    next nv heq =>
      split at h
      next e2 heq2 =>
        injection h with h
        exact h ▸ ih _ heq2
      next => simp at h

theorem buildEvents_error_shape (fields : List (String × JValue)) :
    ∀ (acc : List (Nat × NotificationEvent)) (e : JSError),
      buildEvents fields acc = .error e → normalizesToMalformed e := by
  induction fields with
  | nil => intro acc e h; simp [buildEvents] at h
  | cons pd rest ih =>
    intro acc e h
    obtain ⟨k, d⟩ := pd
    by_cases hk : hexKeyTest k = true
    · simp only [buildEvents, hk, if_true] at h
      split at h
      next e1 heq =>
        injection h with h
        exact h ▸ eventMake_error_shape heq
      next ev heq => exact ih _ _ h
    · simp only [buildEvents, if_neg hk] at h
      injection h with h
      exact h ▸ normalizesToMalformed_throwInvalidConfig

theorem notificationMake_error_shape {id : Nat} {d : JValue} {e : JSError}
    (h : Notification.make id d = .error e) : normalizesToMalformed e := by
  unfold Notification.make at h
  split at h
  next e1 heq =>
    injection h with h
    exact h ▸ getField_error_shape heq
  next name heq =>
    split at h
    next e2 heq2 =>
      injection h with h
      exact h ▸ getField_error_shape heq2
    next variablesVal heq2 =>
      split at h
      next e3 heq3 =>
        injection h with h
        refine h ▸ ?_
        split at heq3
        next vs => exact buildVariables_error_shape _ _ heq3
        next => simp at heq3
      next vars heq3 =>
        split at h
        next e4 heq4 =>
          injection h with h
          exact h ▸ getField_error_shape heq4
        next eventsVal heq4 =>
          split at h
          next e5 heq5 =>
            injection h with h
            refine h ▸ ?_
            split at heq5
            next fs => exact buildEvents_error_shape _ _ _ heq5
            next => simp at heq5
          next => simp at h

theorem buildNotifications_badkey (fields : List (String × JValue)) :
    ∀ acc : List (Nat × Notification),
      (∃ p ∈ fields, hexKeyTest p.1 = false) →
      ∃ e, buildNotifications fields acc = .error e ∧ normalizesToMalformed e := by
  induction fields with
  | nil => intro acc h; simp at h
  | cons pd rest ih =>
    intro acc h
    obtain ⟨k, d⟩ := pd
    by_cases hk : hexKeyTest k = true
    · cases hm : Notification.make (parseHexKey k) d with
      | error e =>
        exact ⟨e, by simp [buildNotifications, hk, hm],
          notificationMake_error_shape hm⟩
      | ok n =>
        have hrest : ∃ p ∈ rest, hexKeyTest p.1 = false := by
          rcases h with ⟨p, hp, hbad⟩
          rcases List.mem_cons.mp hp with heq | hmem
          · subst heq; rw [hk] at hbad; cases hbad
          · exact ⟨p, hmem, hbad⟩
        obtain ⟨e, he, hes⟩ := ih (mapSet acc (parseHexKey k) n) hrest
        exact ⟨e, by simp [buildNotifications, hk, hm, he], hes⟩
    · exact ⟨throwInvalidConfig, by simp [buildNotifications, hk],
        normalizesToMalformed_throwInvalidConfig⟩

/-- C3: a parsed resource whose root is not an object, or that has any
top-level key failing the hex pattern, makes the whole load fail with the
malformed-config error — never a partial mapping. -/
theorem c3_malformed_whole_load (v : JValue)
    (h : isObject v = false ∨ ∃ p ∈ objFields v, hexKeyTest p.1 = false) :
    loadNotifications (.parsed v) = .error (.zwave configMalformedError) := by
  cases hv : isObject v with
  | false =>
    simp [loadNotifications, tryLoadBody, hv, normalizeCaught, throwInvalidConfig]
  | true =>
    rcases h with h | h
    · rw [hv] at h; cases h
    · obtain ⟨e, he, hes⟩ := buildNotifications_badkey (objFields v) [] h
      have hbody : tryLoadBody v = .error e := by simp [tryLoadBody, hv, he]
      show normalizeCaught (tryLoadBody v) = _
      rw [hbody, normalizeCaught_of_shape hes]

theorem c3_witness :
    loadNotifications (.parsed (.jobj [("0x1", .jobj [("name", .jstr "ok")]),
        ("zz", .jobj [])])) =
      .error (.zwave configMalformedError) :=
  c3_malformed_whole_load
    (.jobj [("0x1", .jobj [("name", .jstr "ok")]), ("zz", .jobj [])])
    (Or.inr ⟨("zz", .jobj []), List.Mem.tail _ (List.Mem.head _), by decide⟩)

/-- C9: two distinct hex keys denoting the same integer are not rejected
anywhere — at the registry top level, in the events of a Notification, and
in the states of a Variable the later entry silently overwrites the earlier
one, the
build succeeds, and a successful load emits no diagnostic. -/
theorem c9_duplicate_keys_last_wins :
    (∀ (s1 s2 : String) (d1 d2 : JValue) (n1 n2 : Notification),
      hexKeyTest s1 = true → hexKeyTest s2 = true →
      parseHexKey s2 = parseHexKey s1 →
      Notification.make (parseHexKey s1) d1 = .ok n1 →
      Notification.make (parseHexKey s2) d2 = .ok n2 →
      loadNotifications (.parsed (.jobj [(s1, d1), (s2, d2)])) =
        .ok [(parseHexKey s1, n2)]) ∧
    (∀ (s1 s2 : String) (e1 e2 : JValue) (id : Nat)
        (ev1 ev2 : NotificationEvent),
      hexKeyTest s1 = true → hexKeyTest s2 = true →
      parseHexKey s2 = parseHexKey s1 →
      NotificationEvent.make (parseHexKey s1) e1 = .ok ev1 →
      NotificationEvent.make (parseHexKey s2) e2 = .ok ev2 →
      Notification.make id (.jobj [("events", .jobj [(s1, e1), (s2, e2)])]) =
        .ok { id := id, name := .jundef, vars := [],
              events := [(parseHexKey s1, ev2)] }) ∧
    (∀ (s1 s2 : String) (t1 t2 : JValue) (st1 st2 : NotificationState),
      hexKeyTest s1 = true → hexKeyTest s2 = true →
      parseHexKey s2 = parseHexKey s1 →
      NotificationState.make (parseHexKey s1) t1 = .ok st1 →
      NotificationState.make (parseHexKey s2) t2 = .ok st2 →
      NotificationVariable.make (.jobj [("states", .jobj [(s1, t1), (s2, t2)])]) =
        .ok { name := .jundef, idle := true,
              states := [(parseHexKey s1, st2)] }) ∧
    (∀ (res : ConfigResource) (m : List (Nat × Notification)) (ty : Nat),
      loadNotifications res = .ok m →
      (lookupNotification .unloaded res ty).logged = none) := by
  refine ⟨?_, ?_, ?_, ?_⟩
  · intro s1 s2 d1 d2 n1 n2 h1 h2 hkey hm1 hm2
    rw [hkey] at hm2
    simp [loadNotifications, tryLoadBody, isObject, objFields, buildNotifications,
      h1, h2, hkey, hm1, hm2, mapSet, normalizeCaught]
  · intro s1 s2 e1 e2 id ev1 ev2 h1 h2 hkey hm1 hm2
    rw [hkey] at hm2
    simp [Notification.make, getField, buildEvents, h1, h2, hkey, hm1, hm2,
      mapSet, List.lookup]
  · intro s1 s2 t1 t2 st1 st2 h1 h2 hkey hm1 hm2
    rw [hkey] at hm2
    simp [NotificationVariable.make, getField, isObject, objFields, buildStates,
      isFalseLiteral, h1, h2, hkey, hm1, hm2, mapSet, List.lookup]
  · intro res m ty hld
    simp [lookupNotification, hld]

theorem c9_witness :
    loadNotifications (.parsed (.jobj [("0x6", .jobj []),
        ("0x06", .jobj [("name", .jstr "B")])])) =
      .ok [(6, { id := 6, name := .jstr "B", vars := [], events := [] })] ∧
    Notification.make 3 (.jobj [("events", .jobj
        [("0x5", .jobj [("label", .jstr "E1")]),
         ("0x05", .jobj [("label", .jstr "E2")])])]) =
      .ok { id := 3, name := .jundef, vars := [],
            events := [(5, { id := 5, label := .jstr "E2", description := .jundef })] } ∧
    NotificationVariable.make (.jobj [("states", .jobj
        [("0x5", .jobj [("label", .jstr "S1")]),
         ("0x05", .jobj [("label", .jstr "S2")])])]) =
      .ok { name := .jundef, idle := true,
            states := [(5, { id := 5, label := .jstr "S2", description := .jundef })] } ∧
    (lookupNotification .unloaded (.parsed (.jobj [])) 0).logged = none :=
  ⟨c9_duplicate_keys_last_wins.1 "0x6" "0x06" (.jobj [])
      (.jobj [("name", .jstr "B")])
      { id := 6, name := .jundef, vars := [], events := [] }
      { id := 6, name := .jstr "B", vars := [], events := [] }
      (by decide) (by decide) (by decide) rfl rfl,
   c9_duplicate_keys_last_wins.2.1 "0x5" "0x05"
      (.jobj [("label", .jstr "E1")]) (.jobj [("label", .jstr "E2")]) 3
      { id := 5, label := .jstr "E1", description := .jundef }
      { id := 5, label := .jstr "E2", description := .jundef }
      (by decide) (by decide) (by decide) rfl rfl,
   c9_duplicate_keys_last_wins.2.2.1 "0x5" "0x05"
      (.jobj [("label", .jstr "S1")]) (.jobj [("label", .jstr "S2")])
      { id := 5, label := .jstr "S1", description := .jundef }
      { id := 5, label := .jstr "S2", description := .jundef }
      (by decide) (by decide) (by decide) rfl rfl,
   c9_duplicate_keys_last_wins.2.2.2 (.parsed (.jobj [])) [] 0 rfl⟩
